import Mathlib

/-!
Shallow embedding of the scoring and metric-aggregation core of the
philanthropy benchmark tool, translated from
`src/philanthropy_csv_app.py` (namespace `V1`) and
`src/philanthropy_csv_app_v2.py` (namespace `V2`).

Real-valued quantities are modelled as rationals (ℚ); the float value
NaN ("not available") is modelled as `none` in `Option ℚ` where the
aggregation pipeline can produce it.  Raw CSV cells are strings.
-/

/-- Python `round(x, 1)`: round `x` to one decimal place.
(`round` here is round-half-up on ℚ; the sources' half-to-even behaviour
differs only at exact `.x5` midpoints, which no claim touches.) -/
def round1 (x : ℚ) : ℚ := ((round (10 * x) : ℤ) : ℚ) / 10

namespace V1

/-- Source v1 lines 41-42: `min(round((val / 1_000_000) * 2, 1), 10)`. -/
def score_income (val : ℚ) : ℚ := min (round1 (val / 1000000 * 2)) 10

/-- Source v1 lines 44-50. -/
def score_pipeline (gifts asks : ℚ) : ℚ :=
  if asks = 0 then 0
  else if gifts > asks then round1 (asks / gifts * 8)
  else round1 (gifts / asks * 10)

/-- Source v1 lines 52-53: `min(round(fte * 2, 1), 10)`. -/
def score_team (fte : ℚ) : ℚ := min (round1 (fte * 2)) 10

/-- Source v1 lines 55-56: `min(round(events / 2, 1), 10)`. -/
def score_integration (events : ℚ) : ℚ := min (round1 (events / 2)) 10

/-- The composite formula of v1, line 63. -/
def composite_score (income pipeline team integration : ℚ) : ℚ :=
  round1 ((income + pipeline + team + integration) / 4)

end V1

namespace V2

/-- Source v2 lines 56-57. -/
def score_income (val : ℚ) : ℚ := min (round1 (val / 1000000 * 2)) 10

/-- Source v2 lines 59-65. -/
def score_pipeline (gifts asks : ℚ) : ℚ :=
  if asks = 0 then 0
  else if gifts > asks then round1 (asks / gifts * 8)
  else round1 (gifts / asks * 10)

/-- Source v2 lines 67-68. -/
def score_team (fte : ℚ) : ℚ := min (round1 (fte * 2)) 10

/-- Source v2 lines 70-71. -/
def score_integration (events : ℚ) : ℚ := min (round1 (events / 2)) 10

/-- The composite formula of v2, line 77. -/
def composite_score (income pipeline team integration : ℚ) : ℚ :=
  round1 ((income + pipeline + team + integration) / 4)

end V2

/-! ### Value cleaning (Value Cleaner) -/

/-- Numeric value of a digit string, most significant digit first. -/
def digitsVal (l : List Char) : ℕ := l.foldl (fun a c => 10 * a + (c.toNat - 48)) 0

/-- Syntactic scan of a decimal literal: an optional sign, integer digits,
an optional point with fraction digits, at least one digit in total (the
token shapes accepted by float parsing in `pd.to_numeric`).  Returns the
sign flag and the two digit blocks, or `none` when the token is not a
decimal literal. -/
def scanDec (l : List Char) : Option (Bool × List Char × List Char) :=
  let core : List Char → Option (List Char × List Char) := fun m =>
    let ip := m.takeWhile Char.isDigit
    match m.drop ip.length with
    | [] => if ip.isEmpty then none else some (ip, [])
    | '.' :: fp =>
        if fp.all Char.isDigit && !(ip.isEmpty && fp.isEmpty) then some (ip, fp) else none
    | _ => none
  match l with
  | '+' :: r => (core r).map (fun p => (false, p))
  | '-' :: r => (core r).map (fun p => (true, p))
  | _ => (core l).map (fun p => (false, p))

/-- Rational value of a scanned decimal literal. -/
def decValue : Bool × List Char × List Char → ℚ
  | (neg, ip, fp) =>
    (if neg then -1 else 1) * ((digitsVal ip : ℚ) + (digitsVal fp : ℚ) / 10 ^ fp.length)

/-- Parse a character string as a decimal number; `none` models the float
NaN that `pd.to_numeric(..., errors="coerce")` yields on failure. -/
def parseDec (l : List Char) : Option ℚ := (scanDec l).map decValue

/-- Whitespace test for trimming. -/
def isWs (c : Char) : Bool := c.isWhitespace

/-- Remove leading and trailing whitespace (`.str.strip()`, and the
tolerance of the numeric parser for surrounding whitespace). -/
def trimL (l : List Char) : List Char :=
  ((l.dropWhile isWs).reverse.dropWhile isWs).reverse

/-- Remove every `£` and `,` character (v2 line 31, regex `[£,]` → `""`). -/
def stripCurrency (l : List Char) : List Char :=
  l.filter (fun c => !(c == '£' || c == ','))

/-- Remove every `,` character (v1 lines 32 and 105,
`.replace(",", "", regex=True)`). -/
def stripCommas (l : List Char) : List Char := l.filter (fun c => !(c == ','))

/-- Plain numeric parse of one raw cell, `pd.to_numeric(..., errors="coerce")`:
whitespace-tolerant, no currency stripping. -/
def parsePlain (s : String) : Option ℚ := parseDec (trimL s.data)

namespace V2

/-- Cell-level action of `clean_currency` (v2 lines 30-31): remove `£` and
`,`, strip surrounding whitespace, then numeric parse; an unparseable cell
becomes `none` (NaN). -/
def clean_currency (s : String) : Option ℚ := parseDec (trimL (stripCurrency s.data))

end V2

/-- Modelled from the spec, §4.2 Value Cleaner rule: strip the characters
`£` and `,` (any position, any count) and leading/trailing whitespace; if
the remainder parses as a decimal number return it, otherwise return
"not available".  Kept separate from `V2.clean_currency` so the source
can be compared against the spec's wording. -/
def cleanerRule (s : String) : Option ℚ := parseDec (trimL (stripCurrency s.data))

namespace V1

/-- Cell-level cleaning v1 applies to income columns (line 32) and to the
largest-gift column (line 105): commas removed, no `£` stripping, then
`pd.to_numeric` coercion. -/
def cleanIncomeCell (s : String) : Option ℚ := parsePlain (String.mk (stripCommas s.data))

/-- Cell-level parsing v1 applies to the interactions column (line 34):
plain `pd.to_numeric`, with no stripping at all. -/
def cleanInteractionsCell (s : String) : Option ℚ := parsePlain s

end V1

/-! ### Metric aggregation -/

/-- Mean of one column of parsed cells, NaN entries skipped
(`Series.mean`): `none` when no cell parsed. -/
def colMean (c : List (Option ℚ)) : Option ℚ :=
  let vs := c.filterMap id
  if vs.isEmpty then none else some (vs.sum / vs.length)

/-- Mean of column means (`df[cols].mean().mean()`), all-NaN columns
skipped by the outer mean. -/
def bucketMean (cols : List (List (Option ℚ))) : Option ℚ := colMean (cols.map colMean)

/-! ### Column selection (Column Selector) -/

/-- Substring membership, Python's `needle in hay`. -/
def containsStr (hay needle : String) : Bool := decide (needle.data <:+: hay.data)

/-- Source v1/v2 line 25: income columns contain "Donations" but not "Count". -/
def income_cols (cols : List String) : List String :=
  cols.filter (fun c => containsStr c "Donations" && !containsStr c "Count")

/-- Source v1/v2 line 26: gift-count columns contain "Donations Count". -/
def count_cols (cols : List String) : List String :=
  cols.filter (fun c => containsStr c "Donations Count")

/-- Source v1/v2 line 27. -/
def interaction_name : String := "No. Interactions*"

/-- Source v1/v2 line 28. -/
def events_name : String := "No Events Attended"

/-- Source v1 line 102 / v2 line 123. -/
def largest_name : String := "Largest Gift"

/-- Interactions bucket: exactly the column `"No. Interactions*"` when
present, else empty (the membership guard of v1 line 34 / v2 line 40). -/
def interaction_bucket (cols : List String) : List String :=
  if interaction_name ∈ cols then [interaction_name] else []

/-- Events bucket: exactly the column `"No Events Attended"` when present,
else empty (the membership guard of v1 line 35 / v2 line 43). -/
def events_bucket (cols : List String) : List String :=
  if events_name ∈ cols then [events_name] else []

/-- Largest-gift bucket: exactly the column `"Largest Gift"` when present,
else empty (the membership guard of v1 line 102 / v2 line 123). -/
def largest_bucket (cols : List String) : List String :=
  if largest_name ∈ cols then [largest_name] else []

/-! ### Tables and the v1 aggregation pipeline -/

/-- A raw uploaded table: named columns of raw string cells. -/
def Table : Type := List (String × List String)

/-- Column names of a table, `df.columns`. -/
def colNames (t : Table) : List String := t.map Prod.fst

/-- Membership test `name in df.columns`. -/
def hasCol (t : Table) (n : String) : Bool := (colNames t).contains n

/-- Cells of the named column (empty when the column is absent). -/
def getCol (t : Table) (n : String) : List String :=
  match t.find? (fun p => p.1 == n) with
  | some p => p.2
  | none => []

namespace V1

/-- Source v1 line 33: gift counts parsed plainly, mean of column means. -/
def avg_gifts (t : Table) : Option ℚ :=
  bucketMean ((count_cols (colNames t)).map (fun c => (getCol t c).map parsePlain))

/-- Source v1 line 34: the interactions mean when the column exists, the
number `0` otherwise. -/
def avg_interactions (t : Table) : Option ℚ :=
  if hasCol t interaction_name then
    colMean ((getCol t interaction_name).map cleanInteractionsCell)
  else some 0

/-- Float NaN propagation through the branches of `score_pipeline`: a NaN
`asks` compares false both with `0` and in `gifts > asks` and then divides
to NaN; `asks == 0` returns `0` before `gifts` is inspected, so a NaN
`gifts` with zero `asks` still yields `0`; otherwise a NaN `gifts` divides
to NaN. -/
def score_pipeline_nan (gifts asks : Option ℚ) : Option ℚ :=
  match asks with
  | none => none
  | some a =>
    if a = 0 then some 0
    else
      match gifts with
      | none => none
      | some g => some (score_pipeline g a)

/-- Source v1 line 60: the pipeline score computed from an uploaded table,
with interactions standing in for asks. -/
def pipeline_score (t : Table) : Option ℚ :=
  score_pipeline_nan (avg_gifts t) (avg_interactions t)

end V1

/-! ### Helper lemmas about `round1` -/

lemma round1_nonneg (x : ℚ) (h : 0 ≤ x) : 0 ≤ round1 x := by
  have h1 : (0 : ℤ) ≤ round (10 * x) := by
    rw [round_eq]
    exact Int.floor_nonneg.2 (by linarith)
  have h2 : (0 : ℚ) ≤ ((round (10 * x) : ℤ) : ℚ) := by exact_mod_cast h1
  unfold round1
  positivity

lemma round1_le_int (x : ℚ) (n : ℤ) (h : x ≤ (n : ℚ)) : round1 x ≤ (n : ℚ) := by
  have h1 : round (10 * x) ≤ 10 * n := by
    rw [round_eq]
    have hle : (10 : ℚ) * x + 1 / 2 ≤ ((10 * n : ℤ) : ℚ) + 1 / 2 := by
      push_cast; linarith
    calc ⌊(10 : ℚ) * x + 1 / 2⌋ ≤ ⌊((10 * n : ℤ) : ℚ) + 1 / 2⌋ := Int.floor_le_floor hle
      _ = 10 * n := by rw [← round_eq, round_intCast]
  have h2 : ((round (10 * x) : ℤ) : ℚ) ≤ ((10 * n : ℤ) : ℚ) := by exact_mod_cast h1
  unfold round1
  rw [div_le_iff₀ (by norm_num : (0 : ℚ) < 10)]
  push_cast at h2 ⊢
  linarith

lemma round1_intCast (n : ℤ) : round1 ((n : ℤ) : ℚ) = (n : ℚ) := by
  unfold round1
  have : (10 : ℚ) * (n : ℚ) = ((10 * n : ℤ) : ℚ) := by push_cast; ring
  rw [this, round_intCast]
  push_cast
  ring

/-- Evaluate `round1` at an argument equal to an integer. -/
lemma round1_eval (x : ℚ) (n : ℤ) (h : x = (n : ℚ)) : round1 x = (n : ℚ) := by
  rw [h]; exact round1_intCast n

/-! ### Helper lemmas about parsing and aggregation -/

lemma parseDec_eval (l : List Char) (neg : Bool) (ip fp : List Char) (m k : ℕ)
    (h : scanDec l = some (neg, ip, fp)) (hip : digitsVal ip = m) (hfp : digitsVal fp = k) :
    parseDec l = some ((if neg then -1 else 1) * ((m : ℚ) + (k : ℚ) / 10 ^ fp.length)) := by
  unfold parseDec
  rw [h]
  simp [decValue, hip, hfp]

lemma parseDec_none (l : List Char) (h : scanDec l = none) : parseDec l = none := by
  unfold parseDec
  rw [h]
  rfl

lemma colMean_none (c : List (Option ℚ)) (h : ∀ x ∈ c, x = none) : colMean c = none := by
  unfold colMean
  have hnil : c.filterMap id = [] :=
    List.filterMap_eq_nil_iff.mpr (fun a ha => by simpa using h a ha)
  simp [hnil]

/-! ### Bounds of the four sub-score functions -/

lemma score_income_bounds (v : ℚ) (h : 0 ≤ v) :
    0 ≤ V1.score_income v ∧ V1.score_income v ≤ 10 := by
  unfold V1.score_income
  refine ⟨le_min (round1_nonneg _ (by linarith)) (by norm_num), min_le_right _ _⟩

lemma score_pipeline_bounds (g a : ℚ) (hg : 0 ≤ g) (ha : 0 ≤ a) :
    0 ≤ V1.score_pipeline g a ∧ V1.score_pipeline g a ≤ 10 := by
  unfold V1.score_pipeline
  split_ifs with h1 h2
  · norm_num
  · have ha' : 0 < a := lt_of_le_of_ne ha (Ne.symm h1)
    have hg' : 0 < g := lt_trans ha' h2
    have hr : a / g ≤ 1 := (div_le_one hg').mpr (le_of_lt h2)
    have hr0 : 0 ≤ a / g := div_nonneg ha hg
    constructor
    · exact round1_nonneg _ (by nlinarith)
    · have h8 : a / g * 8 ≤ ((8 : ℤ) : ℚ) := by push_cast; nlinarith
      have := round1_le_int _ 8 h8
      push_cast at this
      linarith
  · have ha' : 0 < a := lt_of_le_of_ne ha (Ne.symm h1)
    have hr : g / a ≤ 1 := (div_le_one ha').mpr (not_lt.mp h2)
    have hr0 : 0 ≤ g / a := div_nonneg hg ha
    constructor
    · exact round1_nonneg _ (by nlinarith)
    · have h10 : g / a * 10 ≤ ((10 : ℤ) : ℚ) := by push_cast; nlinarith
      have := round1_le_int _ 10 h10
      push_cast at this
      linarith

lemma score_team_bounds (f : ℚ) (h : 0 ≤ f) :
    0 ≤ V1.score_team f ∧ V1.score_team f ≤ 10 := by
  unfold V1.score_team
  refine ⟨le_min (round1_nonneg _ (by linarith)) (by norm_num), min_le_right _ _⟩

lemma score_integration_bounds (e : ℚ) (h : 0 ≤ e) :
    0 ≤ V1.score_integration e ∧ V1.score_integration e ≤ 10 := by
  unfold V1.score_integration
  refine ⟨le_min (round1_nonneg _ (by linarith)) (by norm_num), min_le_right _ _⟩

/-! ### Claim theorems -/

/-- C1: for every finite, non-negative input, each of the four sub-score
functions of both versions returns a value in the closed interval
`[0, 10]`; in particular `score_pipeline gifts asks ≤ 10` for all
non-negative `gifts` and `asks`, even though that function applies no
explicit clamp. -/
theorem claim_C1_subscores_bounded (val gifts asks fte events : ℚ)
    (hv : 0 ≤ val) (hg : 0 ≤ gifts) (ha : 0 ≤ asks) (hf : 0 ≤ fte) (he : 0 ≤ events) :
    (0 ≤ V1.score_income val ∧ V1.score_income val ≤ 10) ∧
    (0 ≤ V1.score_pipeline gifts asks ∧ V1.score_pipeline gifts asks ≤ 10) ∧
    (0 ≤ V1.score_team fte ∧ V1.score_team fte ≤ 10) ∧
    (0 ≤ V1.score_integration events ∧ V1.score_integration events ≤ 10) ∧
    (0 ≤ V2.score_income val ∧ V2.score_income val ≤ 10) ∧
    (0 ≤ V2.score_pipeline gifts asks ∧ V2.score_pipeline gifts asks ≤ 10) ∧
    (0 ≤ V2.score_team fte ∧ V2.score_team fte ≤ 10) ∧
    (0 ≤ V2.score_integration events ∧ V2.score_integration events ≤ 10) :=
  ⟨score_income_bounds val hv, score_pipeline_bounds gifts asks hg ha,
   score_team_bounds fte hf, score_integration_bounds events he,
   score_income_bounds val hv, score_pipeline_bounds gifts asks hg ha,
   score_team_bounds fte hf, score_integration_bounds events he⟩

/-- Witness for C1 at `val = 5000000`, `gifts = 20`, `asks = 15`,
`fte = 1`, `events = 4`. -/
theorem claim_C1_subscores_bounded_witness :
    (0 : ℚ) ≤ 5000000 ∧ (0 : ℚ) ≤ 20 ∧ (0 : ℚ) ≤ 15 ∧ (0 : ℚ) ≤ 1 ∧ (0 : ℚ) ≤ 4 ∧
    ((0 ≤ V1.score_income 5000000 ∧ V1.score_income 5000000 ≤ 10) ∧
     (0 ≤ V1.score_pipeline 20 15 ∧ V1.score_pipeline 20 15 ≤ 10) ∧
     (0 ≤ V1.score_team 1 ∧ V1.score_team 1 ≤ 10) ∧
     (0 ≤ V1.score_integration 4 ∧ V1.score_integration 4 ≤ 10) ∧
     (0 ≤ V2.score_income 5000000 ∧ V2.score_income 5000000 ≤ 10) ∧
     (0 ≤ V2.score_pipeline 20 15 ∧ V2.score_pipeline 20 15 ≤ 10) ∧
     (0 ≤ V2.score_team 1 ∧ V2.score_team 1 ≤ 10) ∧
     (0 ≤ V2.score_integration 4 ∧ V2.score_integration 4 ≤ 10)) :=
  ⟨by norm_num, by norm_num, by norm_num, by norm_num, by norm_num,
   claim_C1_subscores_bounded 5000000 20 15 1 4
     (by norm_num) (by norm_num) (by norm_num) (by norm_num) (by norm_num)⟩

/-- C3 counterexample: the §8 table has average gifts 20 and average
interactions 15, and the claimed value `score_pipeline 20 15 = 13.3` is
false on the code. -/
theorem claim_C3_counterexample : V1.score_pipeline 20 15 ≠ 133 / 10 := by
  have h : V1.score_pipeline 20 15 = 6 := by
    unfold V1.score_pipeline
    norm_num
    exact round1_eval _ 6 (by norm_num)
  rw [h]
  norm_num

/-- C3 amended: with average gifts 20 and average interactions 15 the
strict test `gifts > asks` holds, so the `gifts > asks` branch is taken
and the pipeline score is `round(15/20*8, 1) = 6.0`, not `13.3`. -/
theorem claim_C3_amended :
    (20 : ℚ) > 15 ∧ V1.score_pipeline 20 15 = round1 (15 / 20 * 8) ∧
      V1.score_pipeline 20 15 = 6 := by
  refine ⟨by norm_num, ?_, ?_⟩
  · unfold V1.score_pipeline
    norm_num
  · unfold V1.score_pipeline
    norm_num
    exact round1_eval _ 6 (by norm_num)

/-- C4: the four sub-score functions and the composite formula of version 1
and version 2 are extensionally equal. -/
theorem claim_C4_versions_agree :
    ∀ v g a f e i p t n : ℚ,
      V1.score_income v = V2.score_income v ∧
      V1.score_pipeline g a = V2.score_pipeline g a ∧
      V1.score_team f = V2.score_team f ∧
      V1.score_integration e = V2.score_integration e ∧
      V1.composite_score i p t n = V2.composite_score i p t n := by
  intro v g a f e i p t n
  exact ⟨rfl, rfl, rfl, rfl, rfl⟩

/-- C5: `score_pipeline gifts 0 = 0` for every `gifts`, and for
non-negative inputs every division inside `score_pipeline` has a nonzero
divisor: the `asks = 0` case is dispatched before `asks` is used as a
divisor, and `gifts` is used as a divisor only in the branch where
`gifts > asks ≥ 0` forces `gifts ≠ 0`. -/
theorem claim_C5_no_division_by_zero (gifts asks : ℚ) (_hg : 0 ≤ gifts) (ha : 0 ≤ asks) :
    V1.score_pipeline gifts 0 = 0 ∧ V2.score_pipeline gifts 0 = 0 ∧
    (asks ≠ 0 → gifts > asks → gifts ≠ 0) ∧
    (asks ≠ 0 → ¬gifts > asks → asks ≠ 0) := by
  refine ⟨?_, ?_, ?_, fun h _ => h⟩
  · unfold V1.score_pipeline
    simp
  · unfold V2.score_pipeline
    simp
  · intro h1 h2
    have ha' : 0 < asks := lt_of_le_of_ne ha (Ne.symm h1)
    exact ne_of_gt (lt_trans ha' h2)

/-- Witness for C5 at `gifts = 5`, `asks = 3`. -/
theorem claim_C5_no_division_by_zero_witness :
    (0 : ℚ) ≤ 5 ∧ (0 : ℚ) ≤ 3 ∧
    (V1.score_pipeline 5 0 = 0 ∧ V2.score_pipeline 5 0 = 0 ∧
     ((3 : ℚ) ≠ 0 → (5 : ℚ) > 3 → (5 : ℚ) ≠ 0) ∧
     ((3 : ℚ) ≠ 0 → ¬(5 : ℚ) > 3 → (3 : ℚ) ≠ 0)) :=
  ⟨by norm_num, by norm_num,
   claim_C5_no_division_by_zero 5 3 (by norm_num) (by norm_num)⟩

/-- C6: the `gifts > asks` branch of `score_pipeline` is selected only by
strict inequality; for equal nonzero gifts and asks the `else` branch is
taken and the score is `round(gifts/asks*10, 1) = 10`. -/
theorem claim_C6_equal_case (g : ℚ) (h : 0 < g) :
    ¬(g > g) ∧ V1.score_pipeline g g = round1 (g / g * 10) ∧
      V1.score_pipeline g g = 10 := by
  have hne : g ≠ 0 := ne_of_gt h
  refine ⟨lt_irrefl g, ?_, ?_⟩
  · unfold V1.score_pipeline
    rw [if_neg hne, if_neg (lt_irrefl g)]
  · unfold V1.score_pipeline
    rw [if_neg hne, if_neg (lt_irrefl g), div_self hne]
    exact round1_eval _ 10 (by norm_num)

/-- Witness for C6 at `gifts = asks = 10`, the instance named by the claim. -/
theorem claim_C6_equal_case_witness :
    (0 : ℚ) < 10 ∧
    (¬((10 : ℚ) > 10) ∧ V1.score_pipeline 10 10 = round1 (10 / 10 * 10) ∧
      V1.score_pipeline 10 10 = 10) :=
  ⟨by norm_num, claim_C6_equal_case 10 (by norm_num)⟩

/-- C2 counterexample: version 1 does not apply the Value Cleaner rule to
income cells — it strips commas but not `£` — so on the cell `"£1,000"`
the v1 income parse disagrees with the rule. -/
theorem claim_C2_counterexample : V1.cleanIncomeCell "£1,000" ≠ cleanerRule "£1,000" := by
  have h1 : V1.cleanIncomeCell "£1,000" = none := by
    unfold V1.cleanIncomeCell parsePlain
    exact parseDec_none _ (by decide)
  have h2 : cleanerRule "£1,000" = some 1000 := by
    unfold cleanerRule
    have h := parseDec_eval (trimL (stripCurrency "£1,000".data)) false "1000".data [] 1000 0
      (by decide) (by decide) (by decide)
    rw [h]
    norm_num
  rw [h1, h2]
  simp

/-- C2 amended: only version 2 applies the Value Cleaner rule uniformly to
the income, interactions and largest-gift columns (`clean_currency`
coincides with the rule on every cell); version 1 strips only commas from
income and largest-gift cells and parses interactions plainly, so cells
bearing a `£` sign that the rule accepts are "not available" in v1.
Gift-count and events columns use plain parsing in both versions. -/
theorem claim_C2_amended :
    (∀ s : String, V2.clean_currency s = cleanerRule s) ∧
    V1.cleanIncomeCell "£1,000" = none ∧
    V1.cleanInteractionsCell "£15" = none ∧
    cleanerRule "£1,000" = some 1000 ∧ cleanerRule "£15" = some 15 := by
  refine ⟨fun s => rfl, ?_, ?_, ?_, ?_⟩
  · unfold V1.cleanIncomeCell parsePlain
    exact parseDec_none _ (by decide)
  · unfold V1.cleanInteractionsCell parsePlain
    exact parseDec_none _ (by decide)
  · unfold cleanerRule
    have h := parseDec_eval (trimL (stripCurrency "£1,000".data)) false "1000".data [] 1000 0
      (by decide) (by decide) (by decide)
    rw [h]
    norm_num
  · unfold cleanerRule
    have h := parseDec_eval (trimL (stripCurrency "£15".data)) false "15".data [] 15 0
      (by decide) (by decide) (by decide)
    rw [h]
    norm_num

/-- C7: a column whose cells are all empty or unparseable has a
"not available" mean, and a bucket made entirely of such columns has a
"not available" `MetricAverage`; `colMean` and `bucketMean` are total, so
aggregation never raises and never aborts. -/
theorem claim_C7_all_unavailable (b : List (List (Option ℚ)))
    (h : ∀ col ∈ b, ∀ x ∈ col, x = none) :
    (∀ col ∈ b, colMean col = none) ∧ bucketMean b = none := by
  have hc : ∀ col ∈ b, colMean col = none := fun col hcol => colMean_none col (h col hcol)
  refine ⟨hc, ?_⟩
  unfold bucketMean
  apply colMean_none
  intro x hx
  rcases List.mem_map.mp hx with ⟨col, hcol, rfl⟩
  exact hc col hcol

/-- Witness for C7 on a bucket of two columns of unparseable cells. -/
theorem claim_C7_all_unavailable_witness :
    (∀ col ∈ ([[none, none], [none]] : List (List (Option ℚ))), ∀ x ∈ col, x = none) ∧
    ((∀ col ∈ ([[none, none], [none]] : List (List (Option ℚ))), colMean col = none) ∧
      bucketMean [[none, none], [none]] = none) :=
  ⟨by decide, claim_C7_all_unavailable _ (by decide)⟩

/-- C8: the Column Selector returns as the income bucket exactly the
column names containing the substring "Donations" but not "Count", as the
gift-count bucket exactly the names containing "Donations Count", and as
the interactions, events and largest-gift buckets the exact names
`"No. Interactions*"`, `"No Events Attended"` and `"Largest Gift"` when
present, else empty. -/
theorem claim_C8_column_selector (cols : List String) (c : String) :
    (c ∈ income_cols cols ↔
      c ∈ cols ∧ "Donations".data <:+: c.data ∧ ¬"Count".data <:+: c.data) ∧
    (c ∈ count_cols cols ↔ c ∈ cols ∧ "Donations Count".data <:+: c.data) ∧
    (c ∈ interaction_bucket cols ↔ c = interaction_name ∧ interaction_name ∈ cols) ∧
    (c ∈ events_bucket cols ↔ c = events_name ∧ events_name ∈ cols) ∧
    (c ∈ largest_bucket cols ↔ c = largest_name ∧ largest_name ∈ cols) := by
  refine ⟨?_, ?_, ?_, ?_, ?_⟩
  · simp [income_cols, List.mem_filter, containsStr, and_assoc]
  · simp [count_cols, List.mem_filter, containsStr]
  · unfold interaction_bucket
    split_ifs with h <;> simp [h]
  · unfold events_bucket
    split_ifs with h <;> simp [h]
  · unfold largest_bucket
    split_ifs with h <;> simp [h]

/-- C9: on a value already free of `£`, commas, and surrounding
whitespace, the Value Cleaner (both as implemented by v2 and as stated by
the rule) coincides with parsing the value directly as a number. -/
theorem claim_C9_clean_identity (s : String)
    (h1 : '£' ∉ s.data) (h2 : ',' ∉ s.data) (h3 : trimL s.data = s.data) :
    V2.clean_currency s = parseDec s.data ∧ cleanerRule s = parseDec s.data := by
  have hstrip : stripCurrency s.data = s.data := by
    apply List.filter_eq_self.mpr
    intro a ha
    have e1 : a ≠ '£' := fun e => h1 (e ▸ ha)
    have e2 : a ≠ ',' := fun e => h2 (e ▸ ha)
    simp [e1, e2]
  constructor
  · unfold V2.clean_currency
    rw [hstrip, h3]
  · unfold cleanerRule
    rw [hstrip, h3]

/-- Witness for C9 at the already-clean value `"100.5"`. -/
theorem claim_C9_clean_identity_witness :
    '£' ∉ "100.5".data ∧ ',' ∉ "100.5".data ∧ trimL "100.5".data = "100.5".data ∧
    (V2.clean_currency "100.5" = parseDec "100.5".data ∧
     cleanerRule "100.5" = parseDec "100.5".data) :=
  ⟨by decide, by decide, by decide,
   claim_C9_clean_identity "100.5" (by decide) (by decide) (by decide)⟩

/-- C10: in version 1, for every uploaded table lacking a column named
exactly `"No. Interactions*"`, `avg_interactions` defaults to the number
0, and therefore the pipeline score is 0 through the `asks == 0` branch of
`score_pipeline`, regardless of the gift-count data in the table. -/
theorem claim_C10_missing_interactions (t : Table)
    (h : hasCol t interaction_name = false) :
    V1.avg_interactions t = some 0 ∧ V1.pipeline_score t = some 0 := by
  have h1 : V1.avg_interactions t = some 0 := by
    unfold V1.avg_interactions
    simp [h]
  refine ⟨h1, ?_⟩
  unfold V1.pipeline_score
  rw [h1]
  unfold V1.score_pipeline_nan
  simp

/-- Witness for C10 on a table holding only a gift-count column. -/
theorem claim_C10_missing_interactions_witness :
    hasCol ([("Donations Count 2023", ["10", "20", "30"])] : Table) interaction_name = false ∧
    (V1.avg_interactions ([("Donations Count 2023", ["10", "20", "30"])] : Table) = some 0 ∧
     V1.pipeline_score ([("Donations Count 2023", ["10", "20", "30"])] : Table) = some 0) :=
  ⟨by decide, claim_C10_missing_interactions _ (by decide)⟩
